import Mathlib

/-!
Verification of the coin-ai-agent chatbot's core logic: the risk
classifier `getRiskLevel`, the market-data analysis `analyzeCoins`,
the error handling of the memecoin analysis action, and the
`invest_in_coin` action.

JavaScript numbers are modelled by `JSNum`: exact rationals extended
with the IEEE special values Infinity, -Infinity and NaN, with
division, absolute value and comparison following the ECMAScript
rules for those values (finite arithmetic is idealised as exact).
-/

namespace CoinAgent

/-- A JavaScript number: a finite value (idealised as an exact rational)
or one of the IEEE special values. -/
inductive JSNum where
  | num (q : ℚ)
  | posInf
  | negInf
  | nan
deriving DecidableEq

/-- JavaScript division. `a / 0` is Infinity, -Infinity or NaN according
to the sign of `a`; finite / ±Infinity is 0; ±Infinity / ±Infinity and
any operation on NaN is NaN. -/
def JSNum.div : JSNum → JSNum → JSNum
  | nan, _ => nan
  | _, nan => nan
  | num a, num b =>
      if b = 0 then
        if 0 < a then posInf else if a < 0 then negInf else nan
      else num (a / b)
  | num _, posInf => num 0
  | num _, negInf => num 0
  | posInf, num b => if b < 0 then negInf else posInf
  | negInf, num b => if b < 0 then posInf else negInf
  | posInf, posInf => nan
  | posInf, negInf => nan
  | negInf, posInf => nan
  | negInf, negInf => nan

/-- JavaScript multiplication on the same extended domain. -/
def JSNum.mul : JSNum → JSNum → JSNum
  | nan, _ => nan
  | _, nan => nan
  | num a, num b => num (a * b)
  | num a, posInf => if 0 < a then posInf else if a < 0 then negInf else nan
  | num a, negInf => if 0 < a then negInf else if a < 0 then posInf else nan
  | posInf, num b => if 0 < b then posInf else if b < 0 then negInf else nan
  | negInf, num b => if 0 < b then negInf else if b < 0 then posInf else nan
  | posInf, posInf => posInf
  | posInf, negInf => negInf
  | negInf, posInf => negInf
  | negInf, negInf => posInf

/-- `Math.abs`. -/
def JSNum.abs : JSNum → JSNum
  | num q => num |q|
  | posInf => posInf
  | negInf => posInf
  | nan => nan

/-- The JavaScript `<` comparison: any comparison with NaN is false. -/
def JSNum.lt : JSNum → JSNum → Bool
  | nan, _ => false
  | _, nan => false
  | num a, num b => decide (a < b)
  | num _, posInf => true
  | num _, negInf => false
  | posInf, _ => false
  | negInf, negInf => false
  | negInf, _ => true

/-- `getRiskLevel` from chatbot.ts (lines 149-157): risk tier from
trading volume, market cap and 24h price change. `volatility > 50`
is JavaScript `50 < volatility`. -/
def getRiskLevel (volume marketCap priceChange24h : JSNum) : String :=
  let liquidityRatio := volume.div marketCap
  let volatility := priceChange24h.abs
  if liquidityRatio.lt (JSNum.num (5/100)) || (JSNum.num 50).lt volatility then "VERY_HIGH"
  else if liquidityRatio.lt (JSNum.num (1/10)) || (JSNum.num 30).lt volatility then "HIGH"
  else if liquidityRatio.lt (JSNum.num (15/100)) || (JSNum.num 20).lt volatility then "MEDIUM"
  else "LOW"

/-- The risk-classification algorithm as §4.1 of the spec words it
(ordered, first match wins), over exact rationals. Used only to compare
`getRiskLevel` against the spec's wording. -/
def classifySpec (volume marketCap priceChange24hPct : ℚ) : String :=
  let liquidityRatio := volume / marketCap
  let volatility := |priceChange24hPct|
  if liquidityRatio < 5/100 ∨ volatility > 50 then "VERY_HIGH"
  else if liquidityRatio < 1/10 ∨ volatility > 30 then "HIGH"
  else if liquidityRatio < 15/100 ∨ volatility > 20 then "MEDIUM"
  else "LOW"

/-- Severity rank of a risk tier, for monotonicity statements. -/
def severity : String → ℕ
  | "MEDIUM" => 1
  | "HIGH" => 2
  | "VERY_HIGH" => 3
  | _ => 0

/-- A raw record of the market-data provider's response
(interface CoinGeckoResponse). -/
structure CoinGeckoResponse where
  symbol : String
  current_price : ℚ
  price_change_percentage_24h : ℚ
  total_volume : ℚ
  market_cap : ℚ
deriving DecidableEq

/-- One analyzed record as built by `analyzeCoins`'s `map` callback. -/
structure AnalyzedCoin where
  symbol : String
  price : ℚ
  priceChange24h : ℚ
  volume : ℚ
  marketCap : ℚ
  liquidityScore : JSNum
  riskLevel : String
deriving DecidableEq

/-- The per-record mapping inside `analyzeCoins` (chatbot.ts lines 101-109). -/
def mapCoin (coin : CoinGeckoResponse) : AnalyzedCoin :=
  { symbol := coin.symbol.toUpper
    price := coin.current_price
    priceChange24h := coin.price_change_percentage_24h
    volume := coin.total_volume
    marketCap := coin.market_cap
    liquidityScore :=
      ((JSNum.num coin.total_volume).div (JSNum.num coin.market_cap)).mul (JSNum.num 100)
    riskLevel :=
      getRiskLevel (JSNum.num coin.total_volume) (JSNum.num coin.market_cap)
        (JSNum.num coin.price_change_percentage_24h) }

/-- Outcome of the HTTP GET to the market-data provider: a successful
response body, an HTTP error status, or a network failure. -/
inductive FetchOutcome where
  | success (data : List CoinGeckoResponse)
  | httpError (status : ℕ)
  | networkError
deriving DecidableEq

/-- Result of `analyzeCoins`: either an error/info string or a list of
analyzed coins (the function's TypeScript return type is the union). -/
inductive AnalyzeResult where
  | message (s : String)
  | coins (l : List AnalyzedCoin)
deriving DecidableEq

/-- The query parameters `analyzeCoins` sends (chatbot.ts lines 87-93);
`limit` is forwarded as `per_page` and used nowhere else. -/
structure CoinsRequest where
  vs_currency : String
  category : String
  order : String
  per_page : ℕ
  sparkline : Bool
deriving DecidableEq

/-- The request `analyzeCoins category limit` issues. -/
def coinsRequest (category : String) (limit : ℕ) : CoinsRequest :=
  { vs_currency := "usd", category := category, order := "volume_desc",
    per_page := limit, sparkline := false }

/-- `analyzeCoins` from chatbot.ts (lines 79-114), with the API-key
presence and the provider's response made explicit inputs. On success it
maps every record of the response; the catch-all branch returns `[]`. -/
def analyzeCoins (category : String) (limit : ℕ) (apiKeyPresent : Bool)
    (outcome : FetchOutcome) : AnalyzeResult :=
  if !apiKeyPresent then .message "Error: CoinGecko API key not configured."
  else
    match outcome with
    | .success data => .coins (data.map mapCoin)
    | .httpError _ => .coins []
    | .networkError => .coins []

/-- The coin list carried by an `AnalyzeResult` (empty for a message). -/
def resultCoins : AnalyzeResult → List AnalyzedCoin
  | .message _ => []
  | .coins l => l

/-- The error string the `analyze_memecoins` action of the second
chatbot variant returns from its catch block (part_001 lines 120-134),
keyed on the axios response status; a network failure carries no status. -/
def memecoinFetchError : FetchOutcome → String
  | .httpError 400 => "Error: Invalid request parameters. Please try different search criteria."
  | .httpError 401 => "Error: Invalid CoinGecko API key. Please check your configuration."
  | .httpError 429 => "Error: API rate limit exceeded. Please try again later."
  | _ => "Error: Failed to fetch market data. Please try again later."

/-- `s` contains `pat` as a contiguous substring. -/
def ContainsSubstr (s pat : String) : Prop :=
  ∃ pre post : String, s = pre ++ pat ++ post

/-- Arguments of the `invest_in_coin` action (chatbot.ts lines 188-193);
`slippage` is optional in the zod schema. -/
structure InvestArgs where
  tokenAddress : String
  amount : ℚ
  slippage : Option ℚ
  category : String
deriving DecidableEq

/-- One call to `performSwapTransaction`, recording its arguments. -/
structure SwapCall where
  tokenAddress : String
  amount : ℚ
  slippage : ℚ
deriving DecidableEq

/-- `performSwapTransaction` (chatbot.ts lines 168-176): the stub logs
and returns a constant transaction hash. -/
def performSwapTransaction (tokenAddress : String) (amount slippage : ℚ) : String :=
  "0x1234567890abcdef"

/-- The `invest_in_coin` invoke (chatbot.ts lines 194-212), with the
queried wallet balance an explicit input. Returns the reply string and
the list of swap calls performed. `args.slippage || 2` replaces both a
missing and a zero (falsy) slippage with 2. -/
def investInvoke (balance : ℚ) (args : InvestArgs) : String × List SwapCall :=
  if balance < args.amount then
    ("Insufficient mainnet balance (" ++ toString balance ++
      " ETH). Please top up your wallet to invest " ++ toString args.amount ++
      " ETH in " ++ args.category ++ " token.", [])
  else
    let slippage : ℚ :=
      match args.slippage with
      | none => 2
      | some s => if s = 0 then 2 else s
    let txHash := performSwapTransaction args.tokenAddress args.amount slippage
    ("Invested " ++ toString args.amount ++ " ETH in " ++ args.category ++
      " token (" ++ args.tokenAddress ++ "). TX Hash: " ++ txHash,
      [{ tokenAddress := args.tokenAddress, amount := args.amount, slippage := slippage }])

/-- For a nonzero divisor, JavaScript division of finite values is exact
rational division. -/
lemma div_num_of_ne {a b : ℚ} (hb : b ≠ 0) :
    (JSNum.num a).div (JSNum.num b) = JSNum.num (a / b) := by
  simp [JSNum.div, hb]

/-- On finite inputs with nonzero market cap, `getRiskLevel` agrees with
the spec-worded algorithm `classifySpec`. -/
lemma getRiskLevel_eq_classifySpec (v mc pc : ℚ) (hmc : mc ≠ 0) :
    getRiskLevel (.num v) (.num mc) (.num pc) = classifySpec v mc pc := by
  simp only [getRiskLevel, classifySpec, JSNum.abs, div_num_of_ne hmc, JSNum.lt]
  simp only [Bool.or_eq_true, decide_eq_true_eq, gt_iff_lt]

/-- Severity is monotone: a smaller liquidity ratio together with a larger
volatility never yields a strictly less severe tier. -/
lemma severity_classifySpec_le (v1 mc1 pc1 v2 mc2 pc2 : ℚ)
    (hr : v2 / mc2 ≤ v1 / mc1) (hv : |pc1| ≤ |pc2|) :
    severity (classifySpec v1 mc1 pc1) ≤ severity (classifySpec v2 mc2 pc2) := by
  unfold classifySpec
  dsimp only
  split_ifs <;> push_neg at * <;>
    first
      | decide
      | (exfalso; casesm* _ ∨ _, _ ∧ _ <;> linarith)

/-- C1: for every volume, marketCap with marketCap > 0, and every 24h price
change, `getRiskLevel` returns exactly the result of the ordered first-match
algorithm of the spec (liquidityRatio = volume / marketCap, volatility =
|priceChange24hPct|, thresholds 0.05/0.10/0.15 and 50/30/20). -/
theorem c1_getRiskLevel_matches_spec_algorithm (volume marketCap priceChange24hPct : ℚ)
    (h : 0 < marketCap) :
    getRiskLevel (.num volume) (.num marketCap) (.num priceChange24hPct) =
      classifySpec volume marketCap priceChange24hPct :=
  getRiskLevel_eq_classifySpec volume marketCap priceChange24hPct (ne_of_gt h)

/-- C1 witness: concrete instance at volume 1, marketCap 20, price change 0. -/
theorem c1_witness :
    (0:ℚ) < 20 ∧
      getRiskLevel (.num 1) (.num 20) (.num 0) = classifySpec 1 20 0 :=
  ⟨by norm_num, c1_getRiskLevel_matches_spec_algorithm 1 20 0 (by norm_num)⟩

/-- C2 counterexample: `analyzeCoins` does not truncate the provider's
response. When the provider responds with 3 records at limit 2, the result
has 3 records, so its length is not at most the limit. -/
theorem c2_counterexample_no_truncation :
    ¬ ((resultCoins (analyzeCoins "meme-token" 2 true
        (.success [⟨"doge", 1/10, 5, 1000, 10000⟩,
                   ⟨"shib", 1/100, -10, 500, 20000⟩,
                   ⟨"pepe", 1/1000, 60, 100, 50000⟩]))).length ≤ 2) := by
  simp [analyzeCoins, resultCoins]

/-- C2 (amended): `analyzeCoins` forwards the limit upstream as the
`per_page` request parameter and returns one analyzed record per provider
record, in provider order, each with
liquidityScore = (volume / marketCap) × 100; the result length equals the
provider's record count (it is ≤ limit only when the provider honors
`per_page`). -/
theorem c2_analyze_maps_provider_records (category : String) (limit : ℕ)
    (data : List CoinGeckoResponse) :
    (coinsRequest category limit).per_page = limit ∧
    analyzeCoins category limit true (.success data) = .coins (data.map mapCoin) ∧
    (resultCoins (analyzeCoins category limit true (.success data))).length = data.length ∧
    ∀ coin, (mapCoin coin).liquidityScore =
      ((JSNum.num coin.total_volume).div (JSNum.num coin.market_cap)).mul (JSNum.num 100) :=
  ⟨rfl, rfl, by simp [analyzeCoins, resultCoins], fun _ => rfl⟩

/-- C3 counterexample: at marketCap = 0, volume = 100 and price change 0,
`getRiskLevel` neither fails nor returns the sentinel VERY_HIGH: the JS
division yields Infinity, every ratio clause is false, and the function
silently returns LOW. -/
theorem c3_counterexample_market_cap_zero :
    getRiskLevel (.num 100) (.num 0) (.num 0) = "LOW" ∧
    getRiskLevel (.num 100) (.num 0) (.num 0) ≠ "VERY_HIGH" := by
  constructor <;> decide

/-- C3 (amended): for marketCap = 0 and non-negative volume the classifier
does not fail and does not special-case: the liquidity ratio becomes
Infinity (or NaN when volume = 0), all ratio clauses are false, and the
returned tier is decided by volatility alone. -/
theorem c3_market_cap_zero_volatility_only (v pc : ℚ) (hv : 0 ≤ v) :
    getRiskLevel (.num v) (.num 0) (.num pc) =
      (if |pc| > 50 then "VERY_HIGH"
       else if |pc| > 30 then "HIGH"
       else if |pc| > 20 then "MEDIUM"
       else "LOW") := by
  rcases eq_or_lt_of_le hv with h | h
  · simp only [getRiskLevel, JSNum.div, JSNum.abs, JSNum.lt, ← h]
    norm_num
  · simp only [getRiskLevel, JSNum.div, JSNum.abs, JSNum.lt, if_pos rfl, if_pos h]
    simp [decide_eq_true_eq]

/-- C3 witness: concrete instance at volume 100, price change 0. -/
theorem c3_witness :
    (0:ℚ) ≤ 100 ∧
      getRiskLevel (.num 100) (.num 0) (.num 0) =
        (if |(0:ℚ)| > 50 then "VERY_HIGH"
         else if |(0:ℚ)| > 30 then "HIGH"
         else if |(0:ℚ)| > 20 then "MEDIUM"
         else "LOW") :=
  ⟨by norm_num, c3_market_cap_zero_volatility_only 100 0 (by norm_num)⟩

/-- C4: every upstream HTTP error status and every network failure makes
`analyzeCoins` return the empty list (never an exception past the action
boundary), and the second variant's analysis action answers an upstream
HTTP 429 with an error string containing the rate-limit indicator
"rate limit". -/
theorem c4_upstream_errors_handled :
    (∀ category limit status,
      analyzeCoins category limit true (.httpError status) = .coins []) ∧
    (∀ category limit,
      analyzeCoins category limit true .networkError = .coins []) ∧
    ContainsSubstr (memecoinFetchError (.httpError 429)) "rate limit" :=
  ⟨fun _ _ _ => rfl, fun _ _ => rfl,
    ⟨"Error: API ", " exceeded. Please try again later.", by decide⟩⟩

/-- C5: inputs lying exactly on a threshold resolve to the lower severity
tier, because the comparisons are strict: liquidity ratio exactly 0.05
(volatility ≤ 50) gives HIGH not VERY_HIGH, exactly 0.10 (volatility ≤ 30)
gives MEDIUM, exactly 0.15 (volatility ≤ 20) gives LOW; volatility exactly
50 (ratio ≥ 0.05) gives HIGH, exactly 30 (ratio ≥ 0.10) gives MEDIUM,
exactly 20 (ratio ≥ 0.15) gives LOW. -/
theorem c5_boundaries_resolve_lower (v mc pc : ℚ) (hmc : 0 < mc) :
    (v / mc = 5/100 → |pc| ≤ 50 → getRiskLevel (.num v) (.num mc) (.num pc) = "HIGH") ∧
    (v / mc = 1/10 → |pc| ≤ 30 → getRiskLevel (.num v) (.num mc) (.num pc) = "MEDIUM") ∧
    (v / mc = 15/100 → |pc| ≤ 20 → getRiskLevel (.num v) (.num mc) (.num pc) = "LOW") ∧
    (|pc| = 50 → 5/100 ≤ v / mc → getRiskLevel (.num v) (.num mc) (.num pc) = "HIGH") ∧
    (|pc| = 30 → 1/10 ≤ v / mc → getRiskLevel (.num v) (.num mc) (.num pc) = "MEDIUM") ∧
    (|pc| = 20 → 15/100 ≤ v / mc → getRiskLevel (.num v) (.num mc) (.num pc) = "LOW") := by
  rw [getRiskLevel_eq_classifySpec v mc pc (ne_of_gt hmc)]
  unfold classifySpec
  dsimp only
  refine ⟨?_, ?_, ?_, ?_, ?_, ?_⟩ <;> intro hA hB <;>
    split_ifs <;> push_neg at * <;>
      first
        | rfl
        | (exfalso; casesm* _ ∨ _, _ ∧ _ <;> linarith)

/-- C5 witness: concrete instance with liquidity ratio exactly 0.05. -/
theorem c5_witness :
    (0:ℚ) < 20 ∧ (1:ℚ) / 20 = 5/100 ∧ |(0:ℚ)| ≤ 50 ∧
      getRiskLevel (.num 1) (.num 20) (.num 0) = "HIGH" :=
  ⟨by norm_num, by norm_num, by norm_num,
    (c5_boundaries_resolve_lower 1 20 0 (by norm_num)).1 (by norm_num) (by norm_num)⟩

/-- C6: for marketCap > 0 the classifier always returns one of the four
tiers, and severity is monotonically non-decreasing when volatility grows
(ratio fixed) and when the liquidity ratio shrinks (volatility fixed). -/
theorem c6_total_and_monotone (v mc pc : ℚ) (hmc : 0 < mc) :
    getRiskLevel (.num v) (.num mc) (.num pc) ∈ ["LOW", "MEDIUM", "HIGH", "VERY_HIGH"] ∧
    (∀ pc2 : ℚ, |pc| ≤ |pc2| →
      severity (getRiskLevel (.num v) (.num mc) (.num pc)) ≤
        severity (getRiskLevel (.num v) (.num mc) (.num pc2))) ∧
    (∀ v2 mc2 : ℚ, 0 < mc2 → v / mc ≤ v2 / mc2 →
      severity (getRiskLevel (.num v2) (.num mc2) (.num pc)) ≤
        severity (getRiskLevel (.num v) (.num mc) (.num pc))) := by
  have hb := getRiskLevel_eq_classifySpec v mc pc (ne_of_gt hmc)
  refine ⟨?_, ?_, ?_⟩
  · rw [hb]; unfold classifySpec; dsimp only; split_ifs <;> simp
  · intro pc2 hle
    rw [hb, getRiskLevel_eq_classifySpec v mc pc2 (ne_of_gt hmc)]
    exact severity_classifySpec_le v mc pc v mc pc2 le_rfl hle
  · intro v2 mc2 hmc2 hle
    rw [hb, getRiskLevel_eq_classifySpec v2 mc2 pc (ne_of_gt hmc2)]
    exact severity_classifySpec_le v2 mc2 pc v mc pc hle le_rfl

/-- C6 witness: concrete instance at volume 1, marketCap 20, price change 0. -/
theorem c6_witness :
    (0:ℚ) < 20 ∧
      (getRiskLevel (.num 1) (.num 20) (.num 0) ∈ ["LOW", "MEDIUM", "HIGH", "VERY_HIGH"] ∧
      (∀ pc2 : ℚ, |(0:ℚ)| ≤ |pc2| →
        severity (getRiskLevel (.num 1) (.num 20) (.num 0)) ≤
          severity (getRiskLevel (.num 1) (.num 20) (.num pc2))) ∧
      (∀ v2 mc2 : ℚ, 0 < mc2 → (1:ℚ) / 20 ≤ v2 / mc2 →
        severity (getRiskLevel (.num v2) (.num mc2) (.num 0)) ≤
          severity (getRiskLevel (.num 1) (.num 20) (.num 0)))) :=
  ⟨by norm_num, c6_total_and_monotone 1 20 0 (by norm_num)⟩

/-- C7: whenever the queried balance is strictly below the requested
amount, `invest_in_coin` performs no swap call and returns the shortfall
message, which contains both the balance and the amount. -/
theorem c7_insufficient_balance (balance : ℚ) (args : InvestArgs)
    (h : balance < args.amount) :
    (investInvoke balance args).2 = [] ∧
    ContainsSubstr (investInvoke balance args).1 (toString balance) ∧
    ContainsSubstr (investInvoke balance args).1 (toString args.amount) := by
  unfold investInvoke
  rw [if_pos h]
  refine ⟨rfl,
    ⟨"Insufficient mainnet balance (",
      " ETH). Please top up your wallet to invest " ++ toString args.amount ++
        " ETH in " ++ args.category ++ " token.", ?_⟩,
    ⟨"Insufficient mainnet balance (" ++ toString balance ++
        " ETH). Please top up your wallet to invest ",
      " ETH in " ++ args.category ++ " token.", ?_⟩⟩ <;>
    simp [String.append_assoc]

/-- C7 witness: balance 3, amount 5; the message contains "3" and "5". -/
theorem c7_witness :
    (3:ℚ) < 5 ∧
      ((investInvoke 3 ⟨"0xdef", 5, none, "MEME"⟩).2 = [] ∧
      ContainsSubstr (investInvoke 3 ⟨"0xdef", 5, none, "MEME"⟩).1 (toString (3:ℚ)) ∧
      ContainsSubstr (investInvoke 3 ⟨"0xdef", 5, none, "MEME"⟩).1 (toString (5:ℚ))) :=
  ⟨by norm_num, c7_insufficient_balance 3 ⟨"0xdef", 5, none, "MEME"⟩ (by norm_num)⟩

/-- C8: whenever the queried balance is at least the requested amount and
slippage is omitted, `invest_in_coin` performs exactly one swap call with
the given token address, the given amount and the default slippage 2, and
returns a confirmation string embedding the transaction identifier. -/
theorem c8_sufficient_balance_swaps (balance amount : ℚ) (tokenAddress category : String)
    (h : ¬ balance < amount) :
    (investInvoke balance ⟨tokenAddress, amount, none, category⟩).2 =
      [⟨tokenAddress, amount, 2⟩] ∧
    ContainsSubstr (investInvoke balance ⟨tokenAddress, amount, none, category⟩).1
      "0x1234567890abcdef" := by
  unfold investInvoke
  rw [if_neg h]
  refine ⟨rfl,
    ⟨"Invested " ++ toString amount ++ " ETH in " ++ category ++
      " token (" ++ tokenAddress ++ "). TX Hash: ", "", ?_⟩⟩
  simp [performSwapTransaction, String.append_assoc, String.append_empty]

/-- C8 witness: balance 10, amount 1, slippage omitted. -/
theorem c8_witness :
    ¬ (10:ℚ) < 1 ∧
      ((investInvoke 10 ⟨"0xdef", 1, none, "MEME"⟩).2 = [⟨"0xdef", 1, 2⟩] ∧
      ContainsSubstr (investInvoke 10 ⟨"0xdef", 1, none, "MEME"⟩).1 "0x1234567890abcdef") :=
  ⟨by norm_num, c8_sufficient_balance_swaps 10 1 "0xdef" "MEME" (by norm_num)⟩

/-- C9: an explicitly supplied slippage of 0 is falsy, so
`args.slippage || 2` replaces it: the swap is invoked with slippage 2
exactly as if slippage had been omitted. -/
theorem c9_zero_slippage_replaced (balance amount : ℚ) (tokenAddress category : String)
    (h : ¬ balance < amount) :
    (investInvoke balance ⟨tokenAddress, amount, some 0, category⟩).2 =
      [⟨tokenAddress, amount, 2⟩] := by
  simp [investInvoke, h]

/-- C9 witness: balance 10, amount 1, slippage explicitly 0. -/
theorem c9_witness :
    ¬ (10:ℚ) < 1 ∧
      (investInvoke 10 ⟨"0xdef", 1, some 0, "MEME"⟩).2 = [⟨"0xdef", 1, 2⟩] :=
  ⟨by norm_num, c9_zero_slippage_replaced 10 1 "0xdef" "MEME" (by norm_num)⟩

/-- C10: when the balance equals the requested amount exactly, the strict
check `balance < amount` fails, so the insufficient-balance branch is not
taken: exactly one swap call happens and the confirmation message is
returned. -/
theorem c10_equal_balance_swaps (amount : ℚ) (tokenAddress category : String)
    (slippage : Option ℚ) :
    ((investInvoke amount ⟨tokenAddress, amount, slippage, category⟩).2).length = 1 ∧
    ContainsSubstr (investInvoke amount ⟨tokenAddress, amount, slippage, category⟩).1
      "Invested " := by
  unfold investInvoke
  rw [if_neg (lt_irrefl amount)]
  refine ⟨rfl,
    ⟨"", toString amount ++ " ETH in " ++ category ++ " token (" ++ tokenAddress ++
      "). TX Hash: " ++ performSwapTransaction tokenAddress amount
        (match slippage with | none => 2 | some s => if s = 0 then 2 else s), ?_⟩⟩
  simp [String.append_assoc, String.empty_append]

end CoinAgent
